import Mathlib

/-!
Shallow embedding of the Elysia repository fragments relevant to the frozen
claims: the websocket adapter (src/ws/index.ts) and the type-level
definitions TraceEvent, ErrorHandler, GetPathParameter, MergeSchema,
MergeRouteSchema, LocalHook and Reconcile from the two versions of types.ts.
-/

/-- Runtime JavaScript values as far as the websocket adapter inspects them.
The adapter only distinguishes Buffers, values of typeof object (which in
JavaScript includes null, Buffers and plain objects), and everything else.
Plain objects are abstracted by a tag. -/
inductive JSValue where
  | undefined
  | null
  | bool (b : Bool)
  | num (n : Int)
  | str (s : String)
  | buffer (bytes : List Nat)
  | obj (tag : String)
deriving DecidableEq

/-- Embeds the JavaScript test typeof data === object: true for null,
Buffers and plain objects, false for undefined, booleans, numbers, strings. -/
def JSValue.typeofObject : JSValue → Bool
  | JSValue.null => true
  | JSValue.buffer _ => true
  | JSValue.obj _ => true
  | _ => false

/-- Embeds Buffer.isBuffer. -/
def JSValue.isBuffer : JSValue → Bool
  | JSValue.buffer _ => true
  | _ => false

/-- Model of the external JSON.stringify builtin, only ever applied by the
adapter to values of typeof object; an arbitrary injective rendering. -/
def jsonStringify : JSValue → String
  | JSValue.undefined => "undefined"
  | JSValue.null => "null"
  | JSValue.bool b => toString b
  | JSValue.num n => toString n
  | JSValue.str s => "\"" ++ s ++ "\""
  | JSValue.buffer bs => "Buffer(" ++ toString bs ++ ")"
  | JSValue.obj tag => "Object(" ++ tag ++ ")"

/-- The per-connection data of a ServerWebSocket as used by the adapter:
optional id, optional response-schema checker, and the optional lifecycle
handlers stored by the upgrade path. Handlers are abstracted by an opaque
identity tag; the checker is the Schema Validator contract check. -/
structure WSData where
  id : Option String
  validator : Option (JSValue → Bool)
  openH : Option String
  messageH : Option String
  drainH : Option String
  closeH : Option String

/-- One write observed by the underlying raw socket. -/
inductive RawWrite where
  | send (data : JSValue)
  | sendText (data : JSValue)
  | sendBinary (data : JSValue)
  | publish (topic : String) (data : JSValue) (compress : Option Bool)
deriving DecidableEq

/-- The underlying raw socket: its data plus the log of writes performed. -/
structure RawWS where
  data : WSData
  writes : List RawWrite

/-- A recorded invocation of a stored lifecycle handler, with the arguments
the adapter passes to it. -/
inductive WSCall where
  | openCall (handler : String) (ws : RawWS)
  | messageCall (handler : String) (ws : RawWS) (message : JSValue)
  | drainCall (handler : String) (ws : RawWS)
  | closeCall (handler : String) (ws : RawWS) (code : Nat) (reason : String)

/-- Embeds websocket.open: ws.data.open?.(ws) — invoke the stored handler
with the socket when present, do nothing otherwise. -/
def websocketOpen (ws : RawWS) : List WSCall :=
  match ws.data.openH with
  | some h => [WSCall.openCall h ws]
  | none => []

/-- Embeds websocket.message: ws.data.message?.(ws, message). -/
def websocketMessage (ws : RawWS) (message : JSValue) : List WSCall :=
  match ws.data.messageH with
  | some h => [WSCall.messageCall h ws message]
  | none => []

/-- Embeds websocket.drain: ws.data.drain?.(ws). -/
def websocketDrain (ws : RawWS) : List WSCall :=
  match ws.data.drainH with
  | some h => [WSCall.drainCall h ws]
  | none => []

/-- Embeds websocket.close: ws.data.close?.(ws, code, reason). -/
def websocketClose (ws : RawWS) (code : Nat) (reason : String) : List WSCall :=
  match ws.data.closeH with
  | some h => [WSCall.closeCall h ws code reason]
  | none => []

/-- The ElysiaWS wrapper: the raw socket and the validator copied from
raw.data.validator by the constructor. -/
structure ElysiaWS where
  raw : RawWS
  validator : Option (JSValue → Bool)

/-- The error thrown by the outbound operations: mirrors
ValidationError(message, validator, data), keeping the field name and the
offending value. -/
inductive WSValidationErr where
  | validationError (field : String) (value : JSValue)

/-- Embeds the id setter: this.raw.data.id = newID. -/
def ElysiaWS.setId (ws : ElysiaWS) (newID : String) : ElysiaWS :=
  { ws with raw := { ws.raw with data := { ws.raw.data with id := some newID } } }

/-- Embeds the id getter: return this.raw.data.id with a non-null assertion. -/
def ElysiaWS.getId (ws : ElysiaWS) : String :=
  ws.raw.data.id.get!

/-- JavaScript truthiness of an optional string: undefined and the empty
string are falsy. -/
def jsTruthyStr : Option String → Bool
  | none => false
  | some s => !(s == "")

/-- Embeds the ElysiaWS constructor: copy raw.data.validator into
this.validator; if raw.data.id is truthy assign it through the id setter,
otherwise assign the decimal string of a fresh random 32-bit value
(crypto.getRandomValues on a Uint32Array), which is passed here as the
parameter randomValue reduced to 32 bits. -/
def mkElysiaWS (raw : RawWS) (randomValue : Nat) : ElysiaWS :=
  let ws : ElysiaWS := { raw := raw, validator := raw.data.validator }
  if jsTruthyStr raw.data.id then ws.setId ws.raw.data.id.get!
  else ws.setId (Nat.repr (randomValue % 4294967296))

/-- Embeds the guard this.validator?.Check(data) === false: false when no
validator is present (optional chaining yields undefined, which is not
strictly equal to false). -/
def ElysiaWS.checkFailed (ws : ElysiaWS) (d : JSValue) : Bool :=
  match ws.validator with
  | some check => check d == false
  | none => false

/-- Appends one write to the underlying raw socket log. -/
def ElysiaWS.rawWrite (ws : ElysiaWS) (w : RawWrite) : ElysiaWS :=
  { ws with raw := { ws.raw with writes := ws.raw.writes ++ [w] } }

/-- Embeds the send getter of ElysiaWS: validate, then forward a Buffer
unchanged, JSON-stringify any other value of typeof object, and forward
everything else as is. -/
def ElysiaWS.send (ws : ElysiaWS) (d : JSValue) : Except WSValidationErr ElysiaWS :=
  if ws.checkFailed d then Except.error (WSValidationErr.validationError "message" d)
  else if d.isBuffer then Except.ok (ws.rawWrite (RawWrite.send d))
  else if d.typeofObject then
    Except.ok (ws.rawWrite (RawWrite.send (JSValue.str (jsonStringify d))))
  else Except.ok (ws.rawWrite (RawWrite.send d))

/-- Embeds the sendText getter: validate, then forward to raw.sendText. -/
def ElysiaWS.sendText (ws : ElysiaWS) (d : JSValue) : Except WSValidationErr ElysiaWS :=
  if ws.checkFailed d then Except.error (WSValidationErr.validationError "message" d)
  else Except.ok (ws.rawWrite (RawWrite.sendText d))

/-- Embeds the sendBinary getter: validate, then forward to raw.sendBinary. -/
def ElysiaWS.sendBinary (ws : ElysiaWS) (d : JSValue) : Except WSValidationErr ElysiaWS :=
  if ws.checkFailed d then Except.error (WSValidationErr.validationError "message" d)
  else Except.ok (ws.rawWrite (RawWrite.sendBinary d))

/-- Embeds the publish getter: validate, JSON-stringify any value of typeof
object (there is no Buffer special case here), then forward to raw.publish. -/
def ElysiaWS.publish (ws : ElysiaWS) (topic : String) (d : JSValue)
    (compress : Option Bool) : Except WSValidationErr ElysiaWS :=
  if ws.checkFailed d then Except.error (WSValidationErr.validationError "message" d)
  else
    let payload := if d.typeofObject then JSValue.str (jsonStringify d) else d
    Except.ok (ws.rawWrite (RawWrite.publish topic payload compress))

/-- The seven stage names of the TraceEvent union before the unit variants
are added: request, parse, transform, beforeHandle, afterHandle, error,
response. -/
def traceStageNames : List String :=
  ["request", "parse", "transform", "beforeHandle", "afterHandle", "error", "response"]

/-- Embeds the TraceEvent union: the seven stage names, their unit variants,
plus handle and exit. -/
def TraceEventNames : List String :=
  traceStageNames ++ traceStageNames.map (fun s => s ++ ".unit") ++ ["handle", "exit"]

/-- Embeds the TraceStream record: a begin or end timestamped event keyed by
a per-request id; isBegin embeds the type field begin or end. -/
structure TraceStream where
  id : Nat
  event : String
  isBegin : Bool
  time : Nat
  name : Option String
  unit : Option Nat

/-- A trace stream is emittable when its event field belongs to the
TraceEvent union. -/
def validTraceStream (t : TraceStream) : Bool :=
  TraceEventNames.contains t.event

/-- Shapes of the error values carried into an error hook. The six fixed
classes are leaves; custom registered error types are abstracted by name. -/
inductive ErrShape where
  | plainError
  | validationError
  | notFoundError
  | parseError
  | internalServerError
  | invalidCookieSignature
  | custom (name : String)
deriving DecidableEq

/-- The code and error value pair a registered error hook receives. -/
structure ErrorDispatch where
  code : String
  error : ErrShape
deriving DecidableEq

/-- Embeds membership in the ErrorHandler context union: one branch per
fixed code pairing it with its error class, plus one branch per custom
registry entry pairing the registered name with the registered shape. -/
def isErrorHandlerContext (reg : List (String × ErrShape)) (d : ErrorDispatch) : Bool :=
  (d.code == "UNKNOWN" && d.error == ErrShape.plainError)
  || (d.code == "VALIDATION" && d.error == ErrShape.validationError)
  || (d.code == "NOT_FOUND" && d.error == ErrShape.notFoundError)
  || (d.code == "PARSE" && d.error == ErrShape.parseError)
  || (d.code == "INTERNAL_SERVER_ERROR" && d.error == ErrShape.internalServerError)
  || (d.code == "INVALID_COOKIE_SIGNATURE" && d.error == ErrShape.invalidCookieSignature)
  || reg.any (fun p => d.code == p.1 && d.error == p.2)

/-- The error shape associated with each of the six fixed codes. -/
def fixedShapeOf (code : String) : Option ErrShape :=
  if code = "UNKNOWN" then some ErrShape.plainError
  else if code = "VALIDATION" then some ErrShape.validationError
  else if code = "NOT_FOUND" then some ErrShape.notFoundError
  else if code = "PARSE" then some ErrShape.parseError
  else if code = "INTERNAL_SERVER_ERROR" then some ErrShape.internalServerError
  else if code = "INVALID_COOKIE_SIGNATURE" then some ErrShape.invalidCookieSignature
  else none

/-- Splits a character list into the segments between slash characters,
mirroring the repeated first-slash decomposition of the template literal
pattern used by GetPathParameter. -/
def splitOnSlash (cs : List Char) : List String :=
  (cs.foldr
    (fun c acc =>
      if c = '/' then [] :: acc
      else
        match acc with
        | [] => [[c]]
        | s :: rest => (c :: s) :: rest)
    [[]]).map (fun s => String.mk s)

/-- Embeds IsPathParameter: a segment of the form colon-name yields the
name, the single-star segment yields star, anything else yields nothing. -/
def IsPathParameter (part : String) : Option String :=
  match part.toList with
  | ':' :: rest => some (String.mk rest)
  | ['*'] => some "*"
  | _ => none

/-- Embeds the recursion of GetPathParameter over the slash-separated
decomposition: the parameter of the first segment joined with the
parameters of the remainder; a single segment is the base case. -/
def getPathParameterSegments : List String → List String
  | [] => []
  | [part] => (IsPathParameter part).toList
  | part :: rest => (IsPathParameter part).toList ++ getPathParameterSegments rest

/-- Embeds GetPathParameter over a path string. -/
def GetPathParameter (path : String) : List String :=
  getPathParameterSegments (splitOnSlash path.toList)

/-- Written from the words of the spec sentence for the params invariant:
the path-parameter tokens are obtained by splitting the path on the slash
character and keeping the segments of parameter form. -/
def specPathTokens (path : String) : List String :=
  (splitOnSlash path.toList).filterMap IsPathParameter

/-- Embeds the template-literal guard of MergeRouteSchema: the path matches
string, slash, colon or star, string — that is, it contains a slash
immediately followed by a colon or a star. -/
def hasSlashParamAux : List Char → Bool
  | a :: c :: rest =>
      if a = '/' && (c = ':' || c = '*') then true
      else hasSlashParamAux (c :: rest)
  | _ => false

/-- Guard of MergeRouteSchema on a path string. -/
def hasSlashParam (path : String) : Bool :=
  hasSlashParamAux path.toList

/-- Schema values sitting in a route schema slot: an opaque schema
reference, a synthesized record mapping parameter names to the string type,
or the never type. -/
inductive SchemaTy where
  | ref (name : String)
  | paramsRecord (names : List String)
  | neverT
deriving DecidableEq

/-- Embeds RouteSchema: the six optional named slots. -/
structure RouteSchema where
  body : Option SchemaTy
  headers : Option SchemaTy
  query : Option SchemaTy
  params : Option SchemaTy
  cookie : Option SchemaTy
  response : Option SchemaTy
deriving DecidableEq

/-- One slot of MergeSchema: undefined extends the first operand yields the
second operand, otherwise the first. -/
def slotMerge (a b : Option SchemaTy) : Option SchemaTy :=
  match a with
  | none => b
  | some x => some x

/-- Embeds MergeSchema: the per-field conditional applied to each of the
six slots, the route-local operand first. -/
def MergeSchema (A B : RouteSchema) : RouteSchema where
  body := slotMerge A.body B.body
  headers := slotMerge A.headers B.headers
  query := slotMerge A.query B.query
  params := slotMerge A.params B.params
  cookie := slotMerge A.cookie B.cookie
  response := slotMerge A.response B.response

/-- Names of the six schema slots. -/
inductive SlotName where
  | body
  | headers
  | query
  | params
  | cookie
  | response
deriving DecidableEq

/-- Reads one named slot of a route schema. -/
def slotGet (s : RouteSchema) : SlotName → Option SchemaTy
  | SlotName.body => s.body
  | SlotName.headers => s.headers
  | SlotName.query => s.query
  | SlotName.params => s.params
  | SlotName.cookie => s.cookie
  | SlotName.response => s.response

/-- Embeds MergeRouteSchema of the first types file: merge the two schemas;
when the merged schema already has a params slot keep it, otherwise
synthesize the token record only when the template-literal guard matches
the path, and the never type otherwise. -/
def MergeRouteSchema (A B : RouteSchema) (path : String) : RouteSchema :=
  let schema := MergeSchema A B
  match schema.params with
  | some _ => schema
  | none =>
      { schema with
        params := some
          (if hasSlashParam path then SchemaTy.paramsRecord (GetPathParameter path)
           else SchemaTy.neverT) }

/-- Embeds the TypedRoute computation of LocalHook in the second types
file: a schema that already has a params record keeps it, otherwise the
params slot becomes the record over the path parameter tokens. -/
def localHookTypedRoute (schema : RouteSchema) (path : String) : RouteSchema :=
  match schema.params with
  | some _ => schema
  | none => { schema with params := some (SchemaTy.paramsRecord (GetPathParameter path)) }

/-- Lookup of a key in a namespace modelled as an association list, first
binding wins; a key belongs to the namespace when its lookup succeeds. -/
def alookup {V : Type} (k : String) : List (String × V) → Option V
  | [] => none
  | p :: rest => if p.1 = k then some p.2 else alookup k rest

/-- Embeds Reconcile: the mapped type over the keys of the outer namespace
that are not keys of the inner one, then — when that collision remainder is
empty — the inner namespace alone, otherwise the remainder joined with the
whole inner namespace. -/
def Reconcile {V : Type} (A B : List (String × V)) : List (String × V) :=
  let collision := A.filter (fun p => !(alookup p.1 B).isSome)
  if collision.isEmpty then B else collision ++ B

/-- A response checker that rejects every value, for concrete instances. -/
def checkFalse : JSValue → Bool := fun _ => false

/-- A concrete raw socket carrying an id, no validator and all four
lifecycle handlers. -/
def rawEx : RawWS :=
  { data :=
      { id := some "conn-1", validator := none, openH := some "h1"
        messageH := some "h2", drainH := some "h3", closeH := some "h4" }
    writes := [] }

/-- A concrete raw socket whose data carries the empty string as id. -/
def rawEmptyIdEx : RawWS :=
  { data :=
      { id := some "", validator := none, openH := none
        messageH := none, drainH := none, closeH := none }
    writes := [] }

/-- A concrete wrapper without validator. -/
def wsNoValEx : ElysiaWS :=
  { raw := rawEx, validator := none }

/-- A concrete wrapper whose validator rejects every value. -/
def wsValEx : ElysiaWS :=
  { raw := rawEx, validator := some checkFalse }

/-- The empty route schema. -/
def emptyRouteSchema : RouteSchema :=
  { body := none, headers := none, query := none
    params := none, cookie := none, response := none }

/-- A route schema defining only a body slot. -/
def bodySchemaA : RouteSchema :=
  { emptyRouteSchema with body := some (SchemaTy.ref "localBody") }

/-- A second route schema defining a body and a query slot. -/
def bodySchemaB : RouteSchema :=
  { emptyRouteSchema with
    body := some (SchemaTy.ref "inheritedBody")
    query := some (SchemaTy.ref "inheritedQuery") }

/-- C1: on a connection carrying a response-schema checker, each outbound
operation of the realtime adapter (send, sendText, sendBinary, publish)
runs the check on the outgoing data first and, whenever the check returns
false, raises a VALIDATION error carrying the field name and the value,
with nothing written to the underlying socket. -/
theorem c1_outbound_validation (ws : ElysiaWS) (check : JSValue → Bool)
    (d : JSValue) (topic : String) (compress : Option Bool)
    (hv : ws.validator = some check) (hd : check d = false) :
    ws.send d = Except.error (WSValidationErr.validationError "message" d)
    ∧ ws.sendText d = Except.error (WSValidationErr.validationError "message" d)
    ∧ ws.sendBinary d = Except.error (WSValidationErr.validationError "message" d)
    ∧ ws.publish topic d compress =
        Except.error (WSValidationErr.validationError "message" d) := by
  have hc : ws.checkFailed d = true := by
    simp [ElysiaWS.checkFailed, hv, hd]
  refine ⟨?_, ?_, ?_, ?_⟩ <;>
    simp [ElysiaWS.send, ElysiaWS.sendText, ElysiaWS.sendBinary, ElysiaWS.publish, hc]

/-- Witness for C1 at a concrete connection whose checker rejects a value. -/
theorem c1_outbound_validation_witness :
    wsValEx.send (JSValue.str "x") =
        Except.error (WSValidationErr.validationError "message" (JSValue.str "x"))
    ∧ wsValEx.sendText (JSValue.str "x") =
        Except.error (WSValidationErr.validationError "message" (JSValue.str "x"))
    ∧ wsValEx.sendBinary (JSValue.str "x") =
        Except.error (WSValidationErr.validationError "message" (JSValue.str "x"))
    ∧ wsValEx.publish "room" (JSValue.str "x") none =
        Except.error (WSValidationErr.validationError "message" (JSValue.str "x")) :=
  c1_outbound_validation wsValEx checkFalse (JSValue.str "x") "room" none rfl rfl

/-- C7: each of the four lifecycle events open, message, drain, close is
forwarded to the handler of the same name stored in the connection data,
with the socket and the event arguments, and nothing happens when no such
handler is stored. -/
theorem c7_lifecycle_forwarding (ws : RawWS) (msg : JSValue) (code : Nat)
    (reason : String) :
    (∀ h, ws.data.openH = some h → websocketOpen ws = [WSCall.openCall h ws])
    ∧ (ws.data.openH = none → websocketOpen ws = [])
    ∧ (∀ h, ws.data.messageH = some h →
        websocketMessage ws msg = [WSCall.messageCall h ws msg])
    ∧ (ws.data.messageH = none → websocketMessage ws msg = [])
    ∧ (∀ h, ws.data.drainH = some h → websocketDrain ws = [WSCall.drainCall h ws])
    ∧ (ws.data.drainH = none → websocketDrain ws = [])
    ∧ (∀ h, ws.data.closeH = some h →
        websocketClose ws code reason = [WSCall.closeCall h ws code reason])
    ∧ (ws.data.closeH = none → websocketClose ws code reason = []) := by
  refine ⟨?_, ?_, ?_, ?_, ?_, ?_, ?_, ?_⟩ <;> intros <;>
    simp [websocketOpen, websocketMessage, websocketDrain, websocketClose, *]

/-- Witness for C7: handlers present are called with the socket and the
event arguments, an absent handler yields no call. -/
theorem c7_lifecycle_forwarding_witness :
    websocketOpen rawEx = [WSCall.openCall "h1" rawEx]
    ∧ websocketClose rawEx 1000 "bye" = [WSCall.closeCall "h4" rawEx 1000 "bye"]
    ∧ websocketDrain rawEmptyIdEx = [] := by
  have h := c7_lifecycle_forwarding rawEx (JSValue.str "m") 1000 "bye"
  have h2 := c7_lifecycle_forwarding rawEmptyIdEx (JSValue.str "m") 1000 "bye"
  exact ⟨h.1 "h1" rfl, h.2.2.2.2.2.2.1 "h4" rfl, h2.2.2.2.2.2.1 rfl⟩

/-- C8: on a connection whose data carries no validator, the four outbound
operations never raise a VALIDATION error and always forward the data to
the underlying socket. -/
theorem c8_no_validator_all_forwarded (ws : ElysiaWS) (d : JSValue)
    (topic : String) (compress : Option Bool) (hv : ws.validator = none) :
    ws.send d = Except.ok (ws.rawWrite (RawWrite.send
        (if d.isBuffer then d
         else if d.typeofObject then JSValue.str (jsonStringify d) else d)))
    ∧ ws.sendText d = Except.ok (ws.rawWrite (RawWrite.sendText d))
    ∧ ws.sendBinary d = Except.ok (ws.rawWrite (RawWrite.sendBinary d))
    ∧ ws.publish topic d compress = Except.ok (ws.rawWrite (RawWrite.publish topic
        (if d.typeofObject then JSValue.str (jsonStringify d) else d) compress)) := by
  have hc : ws.checkFailed d = false := by simp [ElysiaWS.checkFailed, hv]
  refine ⟨?_, ?_, ?_, ?_⟩
  · by_cases hb : d.isBuffer <;> by_cases ho : d.typeofObject <;>
      simp [ElysiaWS.send, hc, hb, ho]
  · simp [ElysiaWS.sendText, hc]
  · simp [ElysiaWS.sendBinary, hc]
  · simp [ElysiaWS.publish, hc]

/-- Witness for C8 at a validator-free connection: an object is stringified
and sent, a plain string is published unchanged. -/
theorem c8_no_validator_all_forwarded_witness :
    wsNoValEx.send (JSValue.obj "payload") =
      Except.ok (wsNoValEx.rawWrite (RawWrite.send (JSValue.str "Object(payload)")))
    ∧ wsNoValEx.publish "room" (JSValue.str "hey") none =
      Except.ok (wsNoValEx.rawWrite (RawWrite.publish "room" (JSValue.str "hey") none)) := by
  have h := c8_no_validator_all_forwarded wsNoValEx (JSValue.obj "payload") "room" none rfl
  have h2 := c8_no_validator_all_forwarded wsNoValEx (JSValue.str "hey") "room" none rfl
  exact ⟨h.1, h2.2.2.2⟩

/-- C9: in send, a Buffer that passes validation is forwarded unchanged
while any other value of typeof object is JSON-stringified; in publish
there is no Buffer case, so every value of typeof object — a Buffer
included — is JSON-stringified before publishing. -/
theorem c9_buffer_and_stringify (ws : ElysiaWS) (d : JSValue) (topic : String)
    (compress : Option Bool) (hok : ws.checkFailed d = false) :
    (d.isBuffer = true → ws.send d = Except.ok (ws.rawWrite (RawWrite.send d)))
    ∧ (d.isBuffer = false → d.typeofObject = true →
        ws.send d = Except.ok (ws.rawWrite (RawWrite.send (JSValue.str (jsonStringify d)))))
    ∧ (d.typeofObject = true → ws.publish topic d compress =
        Except.ok (ws.rawWrite (RawWrite.publish topic (JSValue.str (jsonStringify d)) compress)))
    ∧ (∀ bs : List Nat,
        (JSValue.buffer bs).isBuffer = true ∧ (JSValue.buffer bs).typeofObject = true) := by
  refine ⟨fun hb => ?_, fun hb ho => ?_, fun ho => ?_, fun bs => ⟨rfl, rfl⟩⟩ <;>
    simp [ElysiaWS.send, ElysiaWS.publish, hok, *]

/-- Witness for C9: a concrete Buffer is sent unchanged yet stringified
when published. -/
theorem c9_buffer_and_stringify_witness :
    wsNoValEx.send (JSValue.buffer [1, 2]) =
      Except.ok (wsNoValEx.rawWrite (RawWrite.send (JSValue.buffer [1, 2])))
    ∧ wsNoValEx.publish "room" (JSValue.buffer [1, 2]) none =
      Except.ok (wsNoValEx.rawWrite
        (RawWrite.publish "room" (JSValue.str (jsonStringify (JSValue.buffer [1, 2]))) none)) := by
  have h := c9_buffer_and_stringify wsNoValEx (JSValue.buffer [1, 2]) "room" none rfl
  exact ⟨h.1 rfl, h.2.2.1 rfl⟩

/-- C10 fails as stated: an id is adopted through a JavaScript truthiness
test, so a caller-supplied empty-string id is not preserved — the
constructor overwrites it with a generated id. -/
theorem c10_id_counterexample :
    rawEmptyIdEx.data.id = some ""
    ∧ (mkElysiaWS rawEmptyIdEx 7).raw.data.id = some "7"
    ∧ ¬ (mkElysiaWS rawEmptyIdEx 7).raw.data.id = some "" := by
  refine ⟨rfl, rfl, fun h => ?_⟩
  rw [show (mkElysiaWS rawEmptyIdEx 7).raw.data.id = some "7" from rfl] at h
  exact absurd (Option.some.inj h) (by decide)

/-- C10 amended: after construction the connection data always has a
defined id; a caller-supplied truthy (non-empty) id is preserved unchanged,
an absent or empty id is replaced by the decimal string of the random
32-bit value; the getter returns the stored id, the setter stores a new
one, and the outbound operations leave the stored id unchanged. -/
theorem c10_id_amended (raw : RawWS) (r : Nat) (s : String) (ws ws2 : ElysiaWS)
    (d : JSValue) (topic : String) (compress : Option Bool) :
    ((mkElysiaWS raw r).raw.data.id.isSome = true)
    ∧ (∀ s0, raw.data.id = some s0 → s0 ≠ "" →
        (mkElysiaWS raw r).raw.data.id = some s0)
    ∧ (jsTruthyStr raw.data.id = false →
        (mkElysiaWS raw r).raw.data.id = some (Nat.repr (r % 4294967296)))
    ∧ (∀ s0, ws.raw.data.id = some s0 → ws.getId = s0)
    ∧ ((ws.setId s).raw.data.id = some s)
    ∧ (ws.send d = Except.ok ws2 → ws2.raw.data.id = ws.raw.data.id)
    ∧ (ws.sendText d = Except.ok ws2 → ws2.raw.data.id = ws.raw.data.id)
    ∧ (ws.sendBinary d = Except.ok ws2 → ws2.raw.data.id = ws.raw.data.id)
    ∧ (ws.publish topic d compress = Except.ok ws2 →
        ws2.raw.data.id = ws.raw.data.id) := by
  refine ⟨?_, ?_, ?_, ?_, rfl, ?_, ?_, ?_, ?_⟩
  · by_cases ht : jsTruthyStr raw.data.id <;> simp [mkElysiaWS, ElysiaWS.setId, ht]
  · intro s0 h0 hne
    simp [mkElysiaWS, ElysiaWS.setId, h0, jsTruthyStr, hne]
  · intro ht
    simp [mkElysiaWS, ht, ElysiaWS.setId]
  · intro s0 h0
    simp [ElysiaWS.getId, h0]
  · intro h
    unfold ElysiaWS.send at h
    split at h
    · exact Except.noConfusion h
    · split at h
      · simp only [Except.ok.injEq] at h
        subst h; rfl
      · split at h
        · simp only [Except.ok.injEq] at h
          subst h; rfl
        · simp only [Except.ok.injEq] at h
          subst h; rfl
  · intro h
    unfold ElysiaWS.sendText at h
    split at h
    · exact Except.noConfusion h
    · simp only [Except.ok.injEq] at h
      subst h; rfl
  · intro h
    unfold ElysiaWS.sendBinary at h
    split at h
    · exact Except.noConfusion h
    · simp only [Except.ok.injEq] at h
      subst h; rfl
  · intro h
    unfold ElysiaWS.publish at h
    split at h
    · exact Except.noConfusion h
    · simp only [Except.ok.injEq] at h
      subst h; rfl

/-- Witness for the amended C10: a truthy id is preserved, an empty one is
replaced by the decimal string of the random value. -/
theorem c10_id_amended_witness :
    (mkElysiaWS rawEx 7).raw.data.id = some "conn-1"
    ∧ (mkElysiaWS rawEmptyIdEx 9).raw.data.id = some "9" := by
  refine ⟨?_, ?_⟩
  · exact (c10_id_amended rawEx 7 "s" wsNoValEx wsNoValEx JSValue.null "t" none).2.1
      "conn-1" rfl (by decide)
  · exact (c10_id_amended rawEmptyIdEx 9 "s" wsNoValEx wsNoValEx JSValue.null "t"
      none).2.2.1 rfl

/-- C2 fails as stated: the TraceEvent union has no mapResponse or
onResponse event at all, and the handle stage has no unit variant, so the
emittable event names do not cover every pipeline stage together with its
unit variant. -/
theorem c2_trace_event_counterexample :
    ¬ ("mapResponse" ∈ TraceEventNames)
    ∧ ¬ ("onResponse" ∈ TraceEventNames)
    ∧ ¬ ("handle.unit" ∈ TraceEventNames)
    ∧ ¬ ("mapResponse.unit" ∈ TraceEventNames)
    ∧ validTraceStream ⟨1, "mapResponse", true, 0, none, none⟩ = false := by
  decide

/-- C2 amended: the emittable trace event names are exactly the seven stage
names request, parse, transform, beforeHandle, afterHandle, error, response
together with their unit variants, plus handle and exit with no unit
variant of their own. -/
theorem c2_trace_event_amended :
    (∀ s ∈ traceStageNames,
      s ∈ TraceEventNames ∧ (s ++ ".unit") ∈ TraceEventNames)
    ∧ "handle" ∈ TraceEventNames
    ∧ "exit" ∈ TraceEventNames
    ∧ (∀ e ∈ TraceEventNames,
        e ∈ traceStageNames ∨ (∃ s ∈ traceStageNames, e = s ++ ".unit")
          ∨ e = "handle" ∨ e = "exit") := by
  decide

/-- Witness for the amended C2 at one concrete stage name. -/
theorem c2_trace_event_amended_witness :
    "beforeHandle" ∈ TraceEventNames ∧ "beforeHandle.unit" ∈ TraceEventNames :=
  c2_trace_event_amended.1 "beforeHandle" (by decide)

/-- C3: a context handed to a registered error hook carries either one of
the six fixed codes paired with its associated error shape, or a custom
code paired with the error shape registered under that code. -/
theorem c3_error_codes (reg : List (String × ErrShape)) (d : ErrorDispatch) :
    isErrorHandlerContext reg d = true ↔
      fixedShapeOf d.code = some d.error ∨ (d.code, d.error) ∈ reg := by
  simp only [isErrorHandlerContext, Bool.or_eq_true, Bool.and_eq_true, beq_iff_eq,
    List.any_eq_true]
  constructor
  · rintro ((((((⟨hc, he⟩ | ⟨hc, he⟩) | ⟨hc, he⟩) | ⟨hc, he⟩) | ⟨hc, he⟩) | ⟨hc, he⟩) |
        ⟨p, hp, hc, he⟩)
    · exact Or.inl (by simp [fixedShapeOf, hc, he])
    · exact Or.inl (by simp [fixedShapeOf, hc, he])
    · exact Or.inl (by simp [fixedShapeOf, hc, he])
    · exact Or.inl (by simp [fixedShapeOf, hc, he])
    · exact Or.inl (by simp [fixedShapeOf, hc, he])
    · exact Or.inl (by simp [fixedShapeOf, hc, he])
    · exact Or.inr (by rw [hc, he]; simpa using hp)
  · rintro (hf | hm)
    · simp only [fixedShapeOf] at hf
      split_ifs at hf with h1 h2 h3 h4 h5 h6
      · exact Or.inl (Or.inl (Or.inl (Or.inl (Or.inl
          (Or.inl ⟨h1, (Option.some.inj hf).symm⟩)))))
      · exact Or.inl (Or.inl (Or.inl (Or.inl (Or.inl
          (Or.inr ⟨h2, (Option.some.inj hf).symm⟩)))))
      · exact Or.inl (Or.inl (Or.inl (Or.inl
          (Or.inr ⟨h3, (Option.some.inj hf).symm⟩))))
      · exact Or.inl (Or.inl (Or.inl
          (Or.inr ⟨h4, (Option.some.inj hf).symm⟩)))
      · exact Or.inl (Or.inl (Or.inr ⟨h5, (Option.some.inj hf).symm⟩))
      · exact Or.inl (Or.inr ⟨h6, (Option.some.inj hf).symm⟩)
    · exact Or.inr ⟨(d.code, d.error), hm, rfl, rfl⟩

/-- C5: for every slot name, the merged schema slot equals the route-local
slot when the route-local schema defines it, and the inherited slot
otherwise. -/
theorem c5_merge_schema_local_wins (A B : RouteSchema) (s : SlotName) :
    (∀ v, slotGet A s = some v → slotGet (MergeSchema A B) s = some v)
    ∧ (slotGet A s = none → slotGet (MergeSchema A B) s = slotGet B s) := by
  cases s <;>
    exact ⟨fun v hv => by
        simp only [slotGet] at hv
        simp [slotGet, MergeSchema, slotMerge, hv],
      fun h => by
        simp only [slotGet] at h
        simp [slotGet, MergeSchema, slotMerge, h]⟩

/-- Witness for C5 at concrete schemas: the local body wins, the inherited
query slot fills the gap. -/
theorem c5_merge_schema_local_wins_witness :
    slotGet (MergeSchema bodySchemaA bodySchemaB) SlotName.body =
      some (SchemaTy.ref "localBody")
    ∧ slotGet (MergeSchema bodySchemaA bodySchemaB) SlotName.query =
      some (SchemaTy.ref "inheritedQuery") := by
  refine ⟨?_, ?_⟩
  · exact (c5_merge_schema_local_wins bodySchemaA bodySchemaB SlotName.body).1
      (SchemaTy.ref "localBody") rfl
  · exact (c5_merge_schema_local_wins bodySchemaA bodySchemaB SlotName.query).2 rfl

/-- The segment recursion of GetPathParameter computes exactly the filtered
map of IsPathParameter over the segment list. -/
theorem getPathParameterSegments_eq_filterMap (l : List String) :
    getPathParameterSegments l = l.filterMap IsPathParameter := by
  induction l with
  | nil => rfl
  | cons a rest ih =>
    cases rest with
    | nil =>
      cases h : IsPathParameter a <;>
        simp [getPathParameterSegments, List.filterMap_cons, h]
    | cons b rest2 =>
      cases h : IsPathParameter a <;>
        simp [getPathParameterSegments, List.filterMap_cons, h, ih]

/-- C4 fails as stated: for the path that is itself a parameter token but
contains no slash, MergeRouteSchema of the first types file synthesizes the
never type instead of the token-to-string mapping, because its guard only
matches a slash followed by a colon or a star. -/
theorem c4_params_synthesis_counterexample :
    GetPathParameter ":id" = ["id"]
    ∧ (MergeRouteSchema emptyRouteSchema emptyRouteSchema ":id").params =
        some SchemaTy.neverT
    ∧ (MergeRouteSchema emptyRouteSchema emptyRouteSchema ":id").params ≠
        some (SchemaTy.paramsRecord ["id"]) := by
  refine ⟨by decide, by decide, by decide⟩

/-- C4 amended: when the schema has no params slot, the LocalHook synthesis
of the second types file yields exactly the mapping that sends each
path-parameter token (segments of colon-name form, or the star segment, of
the slash-split path) to the string type, for every path; the
MergeRouteSchema synthesis of the first types file yields that mapping only
when the path contains a slash immediately followed by a colon or a star,
and the never type (hence no parameter names) otherwise; and the
source-level token recursion agrees with the split-and-filter description. -/
theorem c4_params_synthesis_amended :
    (∀ (schema : RouteSchema) (path : String), schema.params = none →
      (localHookTypedRoute schema path).params =
        some (SchemaTy.paramsRecord (specPathTokens path)))
    ∧ (∀ (A B : RouteSchema) (path : String), (MergeSchema A B).params = none →
      (MergeRouteSchema A B path).params =
        some (if hasSlashParam path then SchemaTy.paramsRecord (specPathTokens path)
              else SchemaTy.neverT))
    ∧ (∀ path : String, GetPathParameter path = specPathTokens path) := by
  have key : ∀ path : String, GetPathParameter path = specPathTokens path := by
    intro path
    unfold GetPathParameter specPathTokens
    exact getPathParameterSegments_eq_filterMap _
  refine ⟨?_, ?_, key⟩
  · intro schema path h
    simp [localHookTypedRoute, h, key path]
  · intro A B path h
    simp [MergeRouteSchema, h, key path]

/-- Witness for the amended C4 at a concrete parameterized path. -/
theorem c4_params_synthesis_amended_witness :
    (localHookTypedRoute emptyRouteSchema "/users/:id/*").params =
      some (SchemaTy.paramsRecord ["id", "*"]) := by
  have h := c4_params_synthesis_amended.1 emptyRouteSchema "/users/:id/*" rfl
  rw [h]
  decide

/-- A list is empty exactly when it is the empty list. -/
theorem alist_isEmpty_iff {α : Type} (l : List α) : l.isEmpty = true ↔ l = [] := by
  cases l <;> simp [List.isEmpty]

/-- Lookup distributes over namespace concatenation, first list first. -/
theorem alookup_append {V : Type} (k : String) (X Y : List (String × V)) :
    alookup k (X ++ Y) =
      (match alookup k X with
       | some v => some v
       | none => alookup k Y) := by
  induction X with
  | nil => simp [alookup]
  | cons p rest ih =>
    by_cases h : p.1 = k <;> simp [alookup, h, ih]

/-- Lookup in the collision remainder: dropped entirely for keys of the
inner namespace, unchanged for the rest. -/
theorem alookup_filter_keys {V : Type} (k : String) (A B : List (String × V)) :
    alookup k (A.filter (fun p => !(alookup p.1 B).isSome)) =
      if (alookup k B).isSome then none else alookup k A := by
  induction A with
  | nil =>
    cases hB : (alookup k B).isSome <;> simp [alookup, hB]
  | cons p rest ih =>
    simp only [List.filter_cons]
    by_cases hp : (alookup p.1 B).isSome = true
    · rw [if_neg (by simp [hp])]
      by_cases hk : p.1 = k
      · subst hk
        rw [ih, if_pos hp, if_pos hp]
      · rw [ih]
        by_cases hB : (alookup k B).isSome = true
        · rw [if_pos hB, if_pos hB]
        · rw [if_neg hB, if_neg hB]
          simp [alookup, hk]
    · rw [if_pos (by simp [hp])]
      by_cases hk : p.1 = k
      · subst hk
        simp [alookup, hp]
      · simp only [alookup, if_neg hk, ih]

/-- Reconcile is the collision remainder joined with the inner namespace,
with the shortcut branch for an empty remainder folded in. -/
theorem Reconcile_eq {V : Type} (A B : List (String × V)) :
    Reconcile A B = A.filter (fun p => !(alookup p.1 B).isSome) ++ B := by
  unfold Reconcile
  by_cases h : (A.filter (fun p => !(alookup p.1 B).isSome)).isEmpty = true
  · rw [if_pos h, (alist_isEmpty_iff _).mp h]
    rfl
  · rw [if_neg h]

/-- C6: the reconciled namespace is defined on exactly the union of the two
key sets, and maps a key to the inner value whenever the inner namespace
defines it and to the outer value otherwise — the innermost definition wins
and values are replaced, never merged. -/
theorem c6_reconcile_inner_wins {V : Type} (A B : List (String × V)) (k : String) :
    alookup k (Reconcile A B) =
      (match alookup k B with
       | some v => some v
       | none => alookup k A)
    ∧ ((alookup k (Reconcile A B)).isSome = true ↔
        (alookup k A).isSome = true ∨ (alookup k B).isSome = true) := by
  have main : alookup k (Reconcile A B) =
      (match alookup k B with
       | some v => some v
       | none => alookup k A) := by
    rw [Reconcile_eq, alookup_append, alookup_filter_keys]
    by_cases hk : (alookup k B).isSome = true
    · obtain ⟨v, hv⟩ := Option.isSome_iff_exists.mp hk
      rw [if_pos hk]
      simp [hv]
    · rw [if_neg hk]
      have hb : alookup k B = none := Option.not_isSome_iff_eq_none.mp hk
      cases ha : alookup k A <;> simp [hb, ha]
  refine ⟨main, ?_⟩
  rw [main]
  cases hb : alookup k B <;> cases ha : alookup k A <;> simp
